import Mathlib

/-!
Shallow embedding of the CropAbility add-operator library
(`src/main/python/pgl/ops/add.py`, `pgl/ops/test.py`, `pgl/ops/export.py`
and `pgl/test.py`).

Tensors are modelled as flat row-major integer buffers carrying a shape, a
dtype and a device tag; element values use exact integer arithmetic (the
claims under study concern data movement, masking and dispatch, not
floating-point rounding).  The Triton kernel is modelled on a single flat
address space (`Nat → Int`): the three tensor pointers become base
addresses, and one grid launch is the sequential composition of the
per-program stores (programs write pairwise disjoint address ranges, so
sequential composition in any order computes the parallel result).
-/

/-- Device residency tag of a tensor (`tensor.is_cuda` in the source). -/
inductive Device where
  | cuda
  | cpu
deriving DecidableEq, Repr

/-- Element dtypes used by the library (`torch.float32` and friends). -/
inductive DType where
  | int64
  | float32
  | float64
deriving DecidableEq, Repr

/-- A tensor: shape, dtype, device tag and flat row-major data buffer. -/
structure Tensor where
  shape : List Nat
  dtype : DType
  device : Device
  data : List Int
deriving DecidableEq, Repr

/-- Number of elements, `tensor.numel()`: the product of the shape. -/
def Tensor.numel (t : Tensor) : Nat := t.shape.prod

/-- Ceiling division `triton.cdiv(a, b) = (a + b - 1) // b`. -/
def cdiv (a b : Nat) : Nat := (a + b - 1) / b

/-- Block size constant of `triton_add` (`BLOCK_SIZE = 1024` in add.py). -/
def BLOCK_SIZE : Nat := 1024

/-- One program instance of `add_kernel` (add.py lines 16-40) acting on a
flat memory.  Program `pid` covers offsets `[pid*B, pid*B + B)`; the mask
`offsets < n_elements` guards both loads (`other=0.0`) and the store
through `output_ptr`.  Address `a` is written exactly when `a = ob + o`
for a masked offset `o` of this block, and the stored value is the sum of
the masked loads at `x_ptr + o` and `y_ptr + o`. -/
def add_kernel (xb yb ob n B pid : Nat) (mem : Nat → Int) : Nat → Int :=
  fun a =>
    if ob ≤ a ∧ pid * B ≤ a - ob ∧ a - ob < pid * B + B ∧ a - ob < n then
      (if a - ob < n then mem (xb + (a - ob)) else 0) +
      (if a - ob < n then mem (yb + (a - ob)) else 0)
    else
      mem a

/-- A grid launch `add_kernel[grid](x, y, output, n, BLOCK_SIZE=B)` with
`grid = (g,)`: programs `0 .. g-1` applied to the memory.  Their write
sets are pairwise disjoint, so this sequential composition models the
parallel launch. -/
def add_launch (xb yb ob n B : Nat) : Nat → (Nat → Int) → (Nat → Int)
  | 0, mem => mem
  | Nat.succ p, mem => add_kernel xb yb ob n B p (add_launch xb yb ob n B p mem)

/-- Initial flat memory of a `triton_add` call: `x` at base `0`, `y` at
base `n`, and the freshly allocated output buffer (`torch.empty_like(x)`,
contents indeterminate, modelled as `0`) at base `2*n`. -/
def tritonHeap (x y : Tensor) : Nat → Int :=
  fun a =>
    if a < x.numel then x.data.getD a 0
    else if a < 2 * x.numel then y.data.getD (a - x.numel) 0
    else 0

/-- `triton_add` (add.py lines 42-70): assert equal shapes, CUDA residency
and equal dtypes; allocate the output with `torch.empty_like(x)`; launch a
grid of `cdiv(n_elements, 1024)` programs of `add_kernel`; return the
output region read back as a tensor. -/
def triton_add (x y : Tensor) : Except String Tensor :=
  if x.shape = y.shape then
    if x.device = Device.cuda ∧ y.device = Device.cuda then
      if x.dtype = y.dtype then
        Except.ok
          { shape := x.shape, dtype := x.dtype, device := x.device,
            data := (List.range x.numel).map
              (fun i => add_launch 0 x.numel (2 * x.numel) x.numel BLOCK_SIZE
                (cdiv x.numel BLOCK_SIZE) (tritonHeap x y) (2 * x.numel + i)) }
      else Except.error ("input tensors must have the same dtype")
    else Except.error ("input tensors must be on a CUDA device")
  else Except.error ("input tensors must have the same shape")

/-- A program leaves an address alone when its guard fails. -/
theorem add_kernel_miss {xb yb ob n B pid : Nat} {mem : Nat → Int} {a : Nat}
    (hc : ¬(ob ≤ a ∧ pid * B ≤ a - ob ∧ a - ob < pid * B + B ∧ a - ob < n)) :
    add_kernel xb yb ob n B pid mem a = mem a := by
  simp only [add_kernel]
  rw [if_neg hc]

/-- A program stores the sum of the two masked loads at a guarded address. -/
theorem add_kernel_hit {xb yb ob n B pid : Nat} {mem : Nat → Int} {a : Nat}
    (h1 : ob ≤ a) (h2 : pid * B ≤ a - ob) (h3 : a - ob < pid * B + B)
    (h4 : a - ob < n) :
    add_kernel xb yb ob n B pid mem a =
      mem (xb + (a - ob)) + mem (yb + (a - ob)) := by
  simp only [add_kernel]
  rw [if_pos ⟨h1, h2, h3, h4⟩, if_pos h4, if_pos h4]

/-- Main launch invariant.  Provided the output region `[ob, ob+n)` is
disjoint from both input regions, after `g` programs: (1) every address
outside the union of the first `g` blocks of the masked output region is
unchanged, and (2) every output cell covered by those blocks holds the sum
of the corresponding input cells of the original memory. -/
theorem add_launch_spec (xb yb ob n B : Nat) (mem : Nat → Int)
    (hx : xb + n ≤ ob ∨ ob + n ≤ xb) (hy : yb + n ≤ ob ∨ ob + n ≤ yb) :
    ∀ g,
      (∀ a, ¬(ob ≤ a ∧ a - ob < n ∧ a - ob < g * B) →
        add_launch xb yb ob n B g mem a = mem a) ∧
      (∀ o, o < n → o < g * B →
        add_launch xb yb ob n B g mem (ob + o) = mem (xb + o) + mem (yb + o)) := by
  intro g
  induction g with
  | zero =>
      refine ⟨fun a _ => rfl, fun o _ ho => ?_⟩
      rw [Nat.zero_mul] at ho
      exact absurd ho (Nat.not_lt_zero o)
  | succ p ih =>
      have hmul : (p + 1) * B = p * B + B := by ring
      constructor
      · intro a ha
        show add_kernel xb yb ob n B p (add_launch xb yb ob n B p mem) a = mem a
        by_cases hc : ob ≤ a ∧ p * B ≤ a - ob ∧ a - ob < p * B + B ∧ a - ob < n
        · exact absurd ⟨hc.1, hc.2.2.2, by omega⟩ ha
        · rw [add_kernel_miss hc]
          exact ih.1 a (fun h => ha ⟨h.1, h.2.1, by omega⟩)
      · intro o ho hg
        show add_kernel xb yb ob n B p (add_launch xb yb ob n B p mem) (ob + o) =
          mem (xb + o) + mem (yb + o)
        have he : ob + o - ob = o := by omega
        by_cases h1 : p * B ≤ o
        · rw [add_kernel_hit (by omega) (by omega) (by omega) (by omega), he]
          have hxv : add_launch xb yb ob n B p mem (xb + o) = mem (xb + o) := by
            apply ih.1
            intro hcon
            rcases hx with h | h <;> omega
          have hyv : add_launch xb yb ob n B p mem (yb + o) = mem (yb + o) := by
            apply ih.1
            intro hcon
            rcases hy with h | h <;> omega
          rw [hxv, hyv]
        · rw [add_kernel_miss (fun hc => h1 (by omega))]
          exact ih.2 o ho (by omega)

/-- The grid `cdiv n B` of blocks of size `B` covers all `n` offsets. -/
theorem le_cdiv_mul (n B : Nat) (hB : 0 < B) : n ≤ cdiv n B * B := by
  unfold cdiv
  have h1 := Nat.div_add_mod (n + B - 1) B
  have h2 : (n + B - 1) % B < B := Nat.mod_lt _ hB
  rw [Nat.mul_comm]
  omega

/-- In-range output cells of a `triton_add`-style launch hold the
elementwise sums, for any positive block size. -/
theorem launch_value (x y : Tensor) (B : Nat) (hB : 0 < B) (i : Nat)
    (hi : i < x.numel) :
    add_launch 0 x.numel (2 * x.numel) x.numel B (cdiv x.numel B)
      (tritonHeap x y) (2 * x.numel + i) = x.data.getD i 0 + y.data.getD i 0 := by
  have hspec := add_launch_spec 0 x.numel (2 * x.numel) x.numel B (tritonHeap x y)
    (Or.inl (by omega)) (Or.inl (by omega)) (cdiv x.numel B)
  have h2 := hspec.2 i hi (Nat.lt_of_lt_of_le hi (le_cdiv_mul x.numel B hB))
  rw [h2]
  have e1 : tritonHeap x y (0 + i) = x.data.getD i 0 := by
    simp only [tritonHeap]
    rw [if_pos (by omega : 0 + i < x.numel), Nat.zero_add]
  have e2 : tritonHeap x y (x.numel + i) = y.data.getD i 0 := by
    simp only [tritonHeap]
    rw [if_neg (by omega : ¬(x.numel + i < x.numel)),
      if_pos (by omega : x.numel + i < 2 * x.numel)]
    congr 1
    omega
  rw [e1, e2]

/-- Addresses outside the masked output region are untouched by the
launch, for any block size. -/
theorem launch_frame (x y : Tensor) (B : Nat) (a : Nat)
    (ha : ¬(2 * x.numel ≤ a ∧ a - 2 * x.numel < x.numel)) :
    add_launch 0 x.numel (2 * x.numel) x.numel B (cdiv x.numel B)
      (tritonHeap x y) a = tritonHeap x y a := by
  have hspec := add_launch_spec 0 x.numel (2 * x.numel) x.numel B (tritonHeap x y)
    (Or.inl (by omega)) (Or.inl (by omega)) (cdiv x.numel B)
  exact hspec.1 a (fun h => ha ⟨h.1, h.2.1⟩)

/-- Reduction of `triton_add` when all three assertions pass. -/
theorem triton_add_eq (x y : Tensor) (hs : x.shape = y.shape)
    (hd : x.dtype = y.dtype) (hcx : x.device = Device.cuda)
    (hcy : y.device = Device.cuda) :
    triton_add x y = Except.ok
      { shape := x.shape, dtype := x.dtype, device := x.device,
        data := (List.range x.numel).map
          (fun i => add_launch 0 x.numel (2 * x.numel) x.numel BLOCK_SIZE
            (cdiv x.numel BLOCK_SIZE) (tritonHeap x y) (2 * x.numel + i)) } := by
  unfold triton_add
  rw [if_pos hs, if_pos ⟨hcx, hcy⟩, if_pos hd]

/-- Reading a mapped range at an in-range index. -/
theorem getD_map_range (n i : Nat) (f : Nat → Int) (hi : i < n) :
    ((List.range n).map f).getD i 0 = f i := by
  rw [List.getD_eq_getElem?_getD, List.getElem?_map, List.getElem?_range hi]
  rfl

/-- Numeric promotion rank of a dtype in the host library. -/
def DType.rank : DType → Nat
  | DType.int64 => 0
  | DType.float32 => 1
  | DType.float64 => 2

/-- Dtype promotion of `torch.add`: the higher-ranked operand dtype wins. -/
def promoteDType (a b : DType) : DType :=
  if a.rank < b.rank then b else a

/-- Broadcast of two shapes already reversed (innermost dimension first),
following the host library rule: dimensions are compatible when equal or
when either is `1`; a missing dimension behaves like `1`. -/
def broadcastRev : List Nat → List Nat → Option (List Nat)
  | [], ys => some ys
  | x :: xs, [] => some (x :: xs)
  | x :: xs, y :: ys =>
    if x = y ∨ x = 1 ∨ y = 1 then
      (broadcastRev xs ys).map (fun r => (if x = 1 then y else x) :: r)
    else none

/-- Broadcast shape of `torch.add`, or `none` when the operand shapes are
not broadcast-compatible (the library raises a size-mismatch error). -/
def broadcastShape (s t : List Nat) : Option (List Nat) :=
  (broadcastRev s.reverse t.reverse).map List.reverse

/-- Row-major multi-index of linear index `k` in a shape. -/
def unflattenIdx : List Nat → Nat → List Nat
  | [], _ => []
  | _ :: ds, k => (k / ds.prod) :: unflattenIdx ds (k % ds.prod)

/-- Row-major linear index of a multi-index in a shape. -/
def flattenIdx : List Nat → List Nat → Nat
  | _ :: ds, c :: cs => c * ds.prod + flattenIdx ds cs
  | _, _ => 0

/-- Clamp a multi-index to a source shape: coordinates of broadcast
(size-1) source dimensions read position `0`. -/
def clampIdx : List Nat → List Nat → List Nat
  | d :: ds, c :: cs => (if d = 1 then 0 else c) :: clampIdx ds cs
  | _, _ => []

/-- Source multi-index that a broadcast output multi-index reads: drop the
leading output dimensions missing from the source shape, then clamp the
broadcast dimensions. -/
def srcIndex (srcShape outIdx : List Nat) : List Nat :=
  clampIdx srcShape (outIdx.drop (outIdx.length - srcShape.length))

/-- Element of operand `t` read by position `k` of the broadcast output. -/
def broadcastGet (t : Tensor) (outShape : List Nat) (k : Nat) : Int :=
  t.data.getD (flattenIdx t.shape (srcIndex t.shape (unflattenIdx outShape k))) 0

/-- A zero-dimensional host tensor: the host library treats it as a
wrapped scalar that may accompany operands resident on any device. -/
def Tensor.isCpuScalar (t : Tensor) : Bool :=
  decide (t.device = Device.cpu ∧ t.shape = [])

/-- Result device of `torch.add`: the common device of the operands, where
a host scalar adopts the other operand's device. -/
def commonDevice (x y : Tensor) : Device :=
  if x.device = y.device then x.device
  else if x.isCpuScalar then y.device
  else x.device

/-- `pytorch_add` (add.py lines 72-83): `torch.add(x, y)`, i.e. the host
library elementwise addition with shape broadcasting and dtype promotion.
It requires both operands on the same device (a zero-dimensional host
tensor is exempt, being treated as a scalar) and raises the library
same-device error otherwise; it raises the library size-mismatch error on
non-broadcastable shapes. -/
def pytorch_add (x y : Tensor) : Except String Tensor :=
  if x.device = y.device ∨ x.isCpuScalar = true ∨ y.isCpuScalar = true then
    match broadcastShape x.shape y.shape with
    | none => Except.error ("the size of tensor a must match the size of tensor b")
    | some s =>
      Except.ok
        { shape := s, dtype := promoteDType x.dtype y.dtype,
          device := commonDevice x y,
          data := (List.range s.prod).map
            (fun k => broadcastGet x s k + broadcastGet y s k) }
  else Except.error ("Expected all tensors to be on the same device")

/-- `add` (add.py lines 85-104): take the Triton path exactly when it is
requested, both operands are CUDA-resident and CUDA is available; on any
kernel exception log a warning and fall back to `pytorch_add`; otherwise
call `pytorch_add` directly.  The second component is the warning log. -/
def add (avail : Bool) (x y : Tensor) (use_triton : Bool) :
    Except String Tensor × List String :=
  if use_triton = true ∧ x.device = Device.cuda ∧ y.device = Device.cuda ∧
      avail = true then
    match triton_add x y with
    | Except.ok r => (Except.ok r, [])
    | Except.error e =>
        (pytorch_add x y, [("Triton add failed, falling back to PyTorch: " ++ e)])
  else (pytorch_add x y, [])

/-- `add_tensors` from `pgl/test.py` (lines 5-22): asserts only shape
equality, allocates `Z = torch.empty_like(X)` and launches a grid of
`cdiv(N, 128)` programs of the same masked load/add/store kernel with
block size `128` (`N` is a compile-time constant there, which does not
change the computed function). -/
def add_tensors (x y : Tensor) : Except String Tensor :=
  if x.shape = y.shape then
    Except.ok
      { shape := x.shape, dtype := x.dtype, device := x.device,
        data := (List.range x.numel).map
          (fun i => add_launch 0 x.numel (2 * x.numel) x.numel 128
            (cdiv x.numel 128) (tritonHeap x y) (2 * x.numel + i)) }
  else Except.error ("assertion failed: X.shape == Y.shape")

/-- Broadcasting a reversed shape with itself is the identity. -/
theorem broadcastRev_self (l : List Nat) : broadcastRev l l = some l := by
  induction l with
  | nil => rfl
  | cons d ds ih =>
      unfold broadcastRev
      rw [if_pos (Or.inl rfl), ih]
      simp [ite_self]

/-- Broadcasting a shape with itself is the identity. -/
theorem broadcastShape_self (s : List Nat) : broadcastShape s s = some s := by
  unfold broadcastShape
  rw [broadcastRev_self]
  simp

/-- The multi-index of a linear index has one coordinate per dimension. -/
theorem unflattenIdx_length (s : List Nat) (k : Nat) :
    (unflattenIdx s k).length = s.length := by
  induction s generalizing k with
  | nil => rfl
  | cons d ds ih => simp [unflattenIdx, ih]

/-- Unflattening, clamping against the same shape and reflattening is the
identity on in-range linear indices. -/
theorem flattenIdx_clampIdx_unflattenIdx (s : List Nat) (k : Nat)
    (hk : k < s.prod) :
    flattenIdx s (clampIdx s (unflattenIdx s k)) = k := by
  induction s generalizing k with
  | nil =>
      simp only [List.prod_nil] at hk
      have hk0 : k = 0 := by omega
      subst hk0
      rfl
  | cons d ds ih =>
      rw [List.prod_cons] at hk
      have hP : 0 < ds.prod := by
        rcases Nat.eq_zero_or_pos ds.prod with h | h
        · rw [h, Nat.mul_zero] at hk
          exact absurd hk (Nat.not_lt_zero k)
        · exact h
      show (if d = 1 then 0 else k / ds.prod) * ds.prod +
        flattenIdx ds (clampIdx ds (unflattenIdx ds (k % ds.prod))) = k
      rw [ih (k % ds.prod) (Nat.mod_lt k hP)]
      have hdm := Nat.div_add_mod k ds.prod
      by_cases hd : d = 1
      · rw [if_pos hd, Nat.zero_mul, Nat.zero_add]
        rw [hd, Nat.one_mul] at hk
        exact Nat.mod_eq_of_lt hk
      · rw [if_neg hd, Nat.mul_comm]
        exact hdm

/-- With identical operand shapes, the broadcast read degenerates to a
direct read at the linear index. -/
theorem broadcastGet_self (t : Tensor) (k : Nat) (hk : k < t.shape.prod) :
    broadcastGet t t.shape k = t.data.getD k 0 := by
  unfold broadcastGet srcIndex
  rw [unflattenIdx_length, Nat.sub_self, List.drop_zero,
    flattenIdx_clampIdx_unflattenIdx t.shape k hk]

/-- Reduction of `pytorch_add` on same-device operands with
broadcast-compatible shapes. -/
theorem pytorch_add_of_broadcast (x y : Tensor) (s : List Nat)
    (hdev : x.device = y.device)
    (hbc : broadcastShape x.shape y.shape = some s) :
    pytorch_add x y = Except.ok
      { shape := s, dtype := promoteDType x.dtype y.dtype, device := x.device,
        data := (List.range s.prod).map
          (fun k => broadcastGet x s k + broadcastGet y s k) } := by
  simp only [pytorch_add, commonDevice, hbc, if_pos (Or.inl hdev : x.device = y.device ∨
    x.isCpuScalar = true ∨ y.isCpuScalar = true), if_pos hdev]

/-- Reduction of `pytorch_add` on same-device operands with incompatible
shapes. -/
theorem pytorch_add_of_none (x y : Tensor) (hdev : x.device = y.device)
    (hbc : broadcastShape x.shape y.shape = none) :
    pytorch_add x y =
      Except.error ("the size of tensor a must match the size of tensor b") := by
  simp only [pytorch_add, hbc, if_pos (Or.inl hdev : x.device = y.device ∨
    x.isCpuScalar = true ∨ y.isCpuScalar = true)]

/-- Reduction of `pytorch_add` on mixed-device non-scalar operands. -/
theorem pytorch_add_of_device_mismatch (x y : Tensor)
    (hdev : x.device ≠ y.device) (hxs : x.isCpuScalar = false)
    (hys : y.isCpuScalar = false) :
    pytorch_add x y =
      Except.error ("Expected all tensors to be on the same device") := by
  unfold pytorch_add
  rw [if_neg]
  intro hc
  rcases hc with h | h | h
  · exact hdev h
  · rw [hxs] at h
    exact Bool.noConfusion h
  · rw [hys] at h
    exact Bool.noConfusion h

/-- Errors of `triton_add` on any violated precondition. -/
theorem triton_add_error_of_mismatch (x y : Tensor)
    (h : x.shape ≠ y.shape ∨ x.dtype ≠ y.dtype ∨
      ¬(x.device = Device.cuda ∧ y.device = Device.cuda)) :
    ∃ e, triton_add x y = Except.error e := by
  unfold triton_add
  by_cases hs : x.shape = y.shape
  · rw [if_pos hs]
    by_cases hc : x.device = Device.cuda ∧ y.device = Device.cuda
    · rw [if_pos hc]
      by_cases hd : x.dtype = y.dtype
      · rcases h with h | h | h
        · exact absurd hs h
        · exact absurd hd h
        · exact absurd hc h
      · rw [if_neg hd]
        exact ⟨_, rfl⟩
    · rw [if_neg hc]
      exact ⟨_, rfl⟩
  · rw [if_neg hs]
    exact ⟨_, rfl⟩

/-- Abstract outcomes of the external TorchScript operations used by
`export_torchscript_model` (export.py lines 59-102): the results of
`torch.jit.trace`, `torch.jit.script`, `scripted_model.save` and
`torch.jit.load`, and the outputs of running the original module and a
reloaded module on the freshly sampled test inputs.  Serialized modules
are named by opaque identifiers; outputs are flat rational vectors so that
the `atol = 1e-6` comparison is exact in the embedding. -/
structure ExportEnv where
  traceResult : Except String Nat
  scriptResult : Except String Nat
  saveResult : Nat → Except String Unit
  loadResult : Except String Nat
  originalOut : List Rat
  loadedOut : Nat → List Rat

/-- `torch.allclose(a, b, atol)` on flat outputs: elementwise
`|a_i - b_i| ≤ atol`, spelled without `abs` as the two one-sided bounds. -/
def allclose (a b : List Rat) (atol : Rat) : Bool :=
  a.length == b.length &&
    (a.zip b).all (fun p => decide (p.1 - p.2 ≤ atol ∧ p.2 - p.1 ≤ atol))

/-- The absolute tolerance `1e-6` used by the verification steps. -/
def ATOL : Rat := 1 / 1000000

/-- `export_torchscript_model` (export.py lines 59-102): trace or script
the module, save the artifact, reload it, run the original and the
reloaded module on test inputs and compare with `atol = 1e-6`.  A
comparison mismatch only emits a warning; any exception raised inside the
try block (tracing/scripting, saving, reloading) is logged and re-raised.
Returns the result (the scripted model, or the re-raised error) together
with the emitted warning/error log. -/
def export_torchscript_model (env : ExportEnv) (use_trace : Bool) :
    Except String Nat × List String :=
  match (if use_trace then env.traceResult else env.scriptResult) with
  | Except.error e => (Except.error e, [("Model export failed: " ++ e)])
  | Except.ok m =>
    match env.saveResult m with
    | Except.error e => (Except.error e, [("Model export failed: " ++ e)])
    | Except.ok _ =>
      match env.loadResult with
      | Except.error e => (Except.error e, [("Model export failed: " ++ e)])
      | Except.ok lm =>
        if allclose env.originalOut (env.loadedOut lm) ATOL then
          (Except.ok m, [])
        else
          (Except.ok m, [("Model verification failed - results mismatch")])

/-- Benchmark record of `benchmark_add_operations` (test.py lines 38-45). -/
structure BenchResults where
  sizes : List Nat
  triton_times : List Rat
  pytorch_times : List Rat
  speedup_ratios : List Rat
  accuracy_checks : List Bool
deriving DecidableEq, Repr

/-- `benchmark_add_operations` (test.py lines 26-113): initialize the
results record with the requested (or default) sizes and four empty lists;
if CUDA is unavailable, warn and return the record unchanged; otherwise
run the timed measurement loop over the sizes, abstracted here as `body`
(wall-clock timing is opaque to the embedding). -/
def benchmark_add_operations (avail : Bool)
    (body : BenchResults → BenchResults) (sizes : Option (List Nat)) :
    BenchResults :=
  let s := sizes.getD [1000, 10000, 100000, 1000000]
  let results : BenchResults :=
    { sizes := s, triton_times := [], pytorch_times := [],
      speedup_ratios := [], accuracy_checks := [] }
  if avail then body results else results

/-- `validate_correctness` (test.py lines 115-173): if CUDA is
unavailable, warn and return `False`; otherwise run the per-size, per-test
pattern validation loop, abstracted here as `body`. -/
def validate_correctness (avail : Bool) (body : List Nat → Bool)
    (test_sizes : Option (List Nat)) : Bool :=
  let s := test_sizes.getD [100, 1000, 10000]
  if avail then body s else false

/-- Concrete CUDA tensor of three elements used by witnesses. -/
def tenA : Tensor := ⟨[3], DType.float32, Device.cuda, [1, 2, 3]⟩

/-- Second concrete CUDA tensor of three elements used by witnesses. -/
def tenB : Tensor := ⟨[3], DType.float32, Device.cuda, [10, 20, 30]⟩

/-- Concrete host-resident tensor of shape `[2]`. -/
def tenC : Tensor := ⟨[2], DType.float32, Device.cpu, [1, 2]⟩

/-- Concrete host-resident tensor of shape `[1]`. -/
def tenD : Tensor := ⟨[1], DType.float32, Device.cpu, [10]⟩

/-- Concrete CUDA tensor of shape `[2]`. -/
def tenE : Tensor := ⟨[2], DType.float32, Device.cuda, [1, 2]⟩

/-- Concrete CUDA tensor of shape `[1]`. -/
def tenF : Tensor := ⟨[1], DType.float32, Device.cuda, [10]⟩

/-- Concrete host-resident tensor of three elements. -/
def tenG : Tensor := ⟨[3], DType.float32, Device.cpu, [1, 2, 3]⟩

/-- Concrete export environment in which every external step succeeds but
the reloaded module disagrees with the original beyond the tolerance. -/
def envW : ExportEnv :=
  ⟨Except.ok 1, Except.ok 2, fun _ => Except.ok (), Except.ok 3,
    [0], fun _ => [1]⟩

/-- C1: for device-resident tensors of identical shape, identical dtype
and element count `n`, `triton_add` returns a tensor of the same shape and
dtype with `out[i] = x[i] + y[i]` for every `i < n` — for every `n`, in
particular when `n` is not a multiple of the block size 1024 (the grid is
`cdiv n 1024` masked blocks). -/
theorem C1_triton_add_correct (x y : Tensor) (hs : x.shape = y.shape)
    (hd : x.dtype = y.dtype) (hcx : x.device = Device.cuda)
    (hcy : y.device = Device.cuda) :
    ∃ t, triton_add x y = Except.ok t ∧ t.shape = x.shape ∧
      t.dtype = x.dtype ∧ t.data.length = x.numel ∧
      ∀ i, i < x.numel →
        t.data.getD i 0 = x.data.getD i 0 + y.data.getD i 0 := by
  refine ⟨_, triton_add_eq x y hs hd hcx hcy, rfl, rfl, by simp, ?_⟩
  intro i hi
  rw [getD_map_range _ _ _ hi]
  exact launch_value x y BLOCK_SIZE (by decide) i hi

/-- C1 witness: concrete CUDA tensors of 3 elements (a partial block). -/
theorem C1_witness :
    ∃ t, triton_add tenA tenB = Except.ok t ∧ t.shape = tenA.shape ∧
      t.dtype = tenA.dtype ∧ t.data.length = tenA.numel ∧
      ∀ i, i < tenA.numel →
        t.data.getD i 0 = tenA.data.getD i 0 + tenB.data.getD i 0 :=
  C1_triton_add_correct tenA tenB rfl rfl rfl rfl

/-- C2: for an element count not divisible by the block size, the launch
writes the correct sum at every in-range output offset up to and including
`n-1`, and performs no store at any output offset `≥ n`: those addresses
still hold their initial contents after the launch. -/
theorem C2_mask_boundary (x y : Tensor) (_hn : x.numel % BLOCK_SIZE ≠ 0) :
    (∀ o, o < x.numel →
      add_launch 0 x.numel (2 * x.numel) x.numel BLOCK_SIZE
        (cdiv x.numel BLOCK_SIZE) (tritonHeap x y) (2 * x.numel + o) =
        x.data.getD o 0 + y.data.getD o 0) ∧
    (∀ o, x.numel ≤ o →
      add_launch 0 x.numel (2 * x.numel) x.numel BLOCK_SIZE
        (cdiv x.numel BLOCK_SIZE) (tritonHeap x y) (2 * x.numel + o) =
        tritonHeap x y (2 * x.numel + o)) := by
  constructor
  · intro o ho
    exact launch_value x y BLOCK_SIZE (by decide) o ho
  · intro o ho
    exact launch_frame x y BLOCK_SIZE (2 * x.numel + o) (by omega)

/-- C2 witness: element count 3, not a multiple of 1024. -/
theorem C2_witness :
    (tenA.numel % BLOCK_SIZE ≠ 0) ∧
    (∀ o, o < tenA.numel →
      add_launch 0 tenA.numel (2 * tenA.numel) tenA.numel BLOCK_SIZE
        (cdiv tenA.numel BLOCK_SIZE) (tritonHeap tenA tenB) (2 * tenA.numel + o) =
        tenA.data.getD o 0 + tenB.data.getD o 0) ∧
    (∀ o, tenA.numel ≤ o →
      add_launch 0 tenA.numel (2 * tenA.numel) tenA.numel BLOCK_SIZE
        (cdiv tenA.numel BLOCK_SIZE) (tritonHeap tenA tenB) (2 * tenA.numel + o) =
        tritonHeap tenA tenB (2 * tenA.numel + o)) :=
  ⟨by decide, (C2_mask_boundary tenA tenB (by decide)).1,
    (C2_mask_boundary tenA tenB (by decide)).2⟩

/-- C8: on a valid invocation `triton_add` allocates exactly one fresh
output buffer of the input size and device, and the launch leaves every
address of the two input regions (all of `x` and all of `y`) unchanged. -/
theorem C8_triton_add_frame (x y : Tensor) (hs : x.shape = y.shape)
    (hd : x.dtype = y.dtype) (hcx : x.device = Device.cuda)
    (hcy : y.device = Device.cuda) :
    (∃ t, triton_add x y = Except.ok t ∧ t.data.length = x.numel ∧
      t.device = x.device ∧ t.dtype = x.dtype) ∧
    (∀ a, a < 2 * x.numel →
      add_launch 0 x.numel (2 * x.numel) x.numel BLOCK_SIZE
        (cdiv x.numel BLOCK_SIZE) (tritonHeap x y) a = tritonHeap x y a) := by
  constructor
  · exact ⟨_, triton_add_eq x y hs hd hcx hcy, by simp, rfl, rfl⟩
  · intro a ha
    exact launch_frame x y BLOCK_SIZE a (by omega)

/-- C8 witness: concrete CUDA tensors of 3 elements. -/
theorem C8_witness :
    (∃ t, triton_add tenA tenB = Except.ok t ∧ t.data.length = tenA.numel ∧
      t.device = tenA.device ∧ t.dtype = tenA.dtype) ∧
    (∀ a, a < 2 * tenA.numel →
      add_launch 0 tenA.numel (2 * tenA.numel) tenA.numel BLOCK_SIZE
        (cdiv tenA.numel BLOCK_SIZE) (tritonHeap tenA tenB) a =
        tritonHeap tenA tenB a) :=
  C8_triton_add_frame tenA tenB rfl rfl rfl rfl

/-- C9: the standalone wrapper `add_tensors` of `pgl/test.py` (block size
128) computes the same function as `triton_add` of `pgl/ops/add.py` (block
size 1024) on device-resident tensors of identical shape and dtype, and
both results are the elementwise sum. -/
theorem C9_add_tensors_equiv (x y : Tensor) (hs : x.shape = y.shape)
    (hd : x.dtype = y.dtype) (hcx : x.device = Device.cuda)
    (hcy : y.device = Device.cuda) :
    add_tensors x y = triton_add x y ∧
    ∃ t, add_tensors x y = Except.ok t ∧
      ∀ i, i < x.numel →
        t.data.getD i 0 = x.data.getD i 0 + y.data.getD i 0 := by
  have hat : add_tensors x y = Except.ok
      { shape := x.shape, dtype := x.dtype, device := x.device,
        data := (List.range x.numel).map
          (fun i => add_launch 0 x.numel (2 * x.numel) x.numel 128
            (cdiv x.numel 128) (tritonHeap x y) (2 * x.numel + i)) } := by
    unfold add_tensors
    rw [if_pos hs]
  have hmap : (List.range x.numel).map
      (fun i => add_launch 0 x.numel (2 * x.numel) x.numel 128
        (cdiv x.numel 128) (tritonHeap x y) (2 * x.numel + i)) =
      (List.range x.numel).map
      (fun i => add_launch 0 x.numel (2 * x.numel) x.numel BLOCK_SIZE
        (cdiv x.numel BLOCK_SIZE) (tritonHeap x y) (2 * x.numel + i)) := by
    apply List.map_congr_left
    intro i hi
    rw [List.mem_range] at hi
    rw [launch_value x y 128 (by decide) i hi,
      launch_value x y BLOCK_SIZE (by decide) i hi]
  constructor
  · rw [hat, triton_add_eq x y hs hd hcx hcy, hmap]
  · refine ⟨_, hat, ?_⟩
    intro i hi
    rw [getD_map_range _ _ _ hi]
    exact launch_value x y 128 (by decide) i hi

/-- C9 witness: concrete CUDA tensors of 3 elements. -/
theorem C9_witness :
    add_tensors tenA tenB = triton_add tenA tenB ∧
    ∃ t, add_tensors tenA tenB = Except.ok t ∧
      ∀ i, i < tenA.numel →
        t.data.getD i 0 = tenA.data.getD i 0 + tenB.data.getD i 0 :=
  C9_add_tensors_equiv tenA tenB rfl rfl rfl rfl

/-- C3: the dispatcher `add` attempts the kernel executor exactly when the
Triton path is requested, both operands are CUDA-resident and CUDA is
available; if the kernel attempt raises it logs a warning and returns the
fallback result `pytorch_add x y`; in every other case it calls the
fallback executor directly. -/
theorem C3_dispatch (avail ut : Bool) (x y : Tensor) :
    ((ut = true ∧ x.device = Device.cuda ∧ y.device = Device.cuda ∧
        avail = true) →
      (∀ t, triton_add x y = Except.ok t → add avail x y ut = (Except.ok t, [])) ∧
      (∀ e, triton_add x y = Except.error e →
        add avail x y ut =
          (pytorch_add x y,
            [("Triton add failed, falling back to PyTorch: " ++ e)]))) ∧
    (¬(ut = true ∧ x.device = Device.cuda ∧ y.device = Device.cuda ∧
        avail = true) →
      add avail x y ut = (pytorch_add x y, [])) := by
  constructor
  · intro hg
    constructor
    · intro t ht
      unfold add
      rw [if_pos hg, ht]
    · intro e he
      unfold add
      rw [if_pos hg, he]
  · intro hg
    unfold add
    rw [if_neg hg]

/-- C3 witness: the eligible path with a succeeding kernel, and the
ineligible path (`use_triton = false`) calling the fallback directly. -/
theorem C3_witness :
    (∃ t, add true tenA tenB true = (Except.ok t, [])) ∧
      add true tenA tenB false = (pytorch_add tenA tenB, []) :=
  ⟨⟨_, ((C3_dispatch true true tenA tenB).1 ⟨rfl, rfl, rfl, rfl⟩).1 _ rfl⟩,
    (C3_dispatch true false tenA tenB).2 (by decide)⟩

/-- C4: `triton_add` fails whenever shapes mismatch, dtypes mismatch or
either operand is not CUDA-resident, and under the matching precondition
none of the error branches is reachable (the call returns a result). -/
theorem C4_triton_guards (x y : Tensor) :
    ((x.shape ≠ y.shape ∨ x.dtype ≠ y.dtype ∨
        ¬(x.device = Device.cuda ∧ y.device = Device.cuda)) →
      ∃ e, triton_add x y = Except.error e) ∧
    (x.shape = y.shape → x.dtype = y.dtype → x.device = Device.cuda →
      y.device = Device.cuda → ∃ t, triton_add x y = Except.ok t) := by
  constructor
  · exact triton_add_error_of_mismatch x y
  · intro hs hd hcx hcy
    exact ⟨_, triton_add_eq x y hs hd hcx hcy⟩

/-- C4 witness: a non-CUDA operand makes `triton_add` fail; matching CUDA
operands make it return a result. -/
theorem C4_witness :
    (∃ e, triton_add tenA tenG = Except.error e) ∧
      ∃ t, triton_add tenA tenB = Except.ok t :=
  ⟨(C4_triton_guards tenA tenG).1 (Or.inr (Or.inr (by decide))),
    (C4_triton_guards tenA tenB).2 rfl rfl rfl rfl⟩

/-- C5 counterexample: the claim fails on the code in both directions.
The shapes `[2]` and `[1]` differ, yet `pytorch_add` succeeds (the host
library broadcasts) instead of failing with a shape-mismatch error; and a
CUDA/host pair of identical shape `[2]` and identical dtype fails with the
library same-device error instead of always succeeding. -/
theorem C5_counterexample :
    (tenC.shape ≠ tenD.shape ∧
      pytorch_add tenC tenD =
        Except.ok ⟨[2], DType.float32, Device.cpu, [11, 12]⟩) ∧
    (tenE.shape = tenC.shape ∧ tenE.dtype = tenC.dtype ∧
      pytorch_add tenE tenC =
        Except.error ("Expected all tensors to be on the same device")) :=
  ⟨⟨by decide, by rfl⟩, rfl, rfl, by rfl⟩

/-- C5 (amended): `pytorch_add` always succeeds and returns the
elementwise sum when shapes and devices are identical (dtypes promote);
for same-device operands it succeeds whenever the shapes are
broadcast-compatible and fails with the host library shape-mismatch error
when they are not; non-scalar operands on different devices fail with the
library same-device error. -/
theorem C5_pytorch_add_spec (x y : Tensor) :
    (x.device = y.device → x.shape = y.shape →
      ∃ t, pytorch_add x y = Except.ok t ∧ t.shape = x.shape ∧
        t.dtype = promoteDType x.dtype y.dtype ∧
        ∀ i, i < x.numel →
          t.data.getD i 0 = x.data.getD i 0 + y.data.getD i 0) ∧
    (∀ s, x.device = y.device → broadcastShape x.shape y.shape = some s →
      ∃ t, pytorch_add x y = Except.ok t ∧ t.shape = s) ∧
    (x.device = y.device → broadcastShape x.shape y.shape = none →
      pytorch_add x y =
        Except.error ("the size of tensor a must match the size of tensor b")) ∧
    (x.device ≠ y.device → x.isCpuScalar = false → y.isCpuScalar = false →
      pytorch_add x y =
        Except.error ("Expected all tensors to be on the same device")) := by
  refine ⟨?_, ?_, ?_, ?_⟩
  · intro hdev hs
    have hbc : broadcastShape x.shape y.shape = some x.shape := by
      rw [hs]
      exact broadcastShape_self y.shape
    refine ⟨_, pytorch_add_of_broadcast x y x.shape hdev hbc, rfl, rfl, ?_⟩
    intro i hi
    have hi1 : i < x.shape.prod := hi
    have hi2 : i < y.shape.prod := by
      rw [← hs]
      exact hi1
    rw [getD_map_range _ _ _ hi1]
    have h2 : broadcastGet y x.shape i = y.data.getD i 0 := by
      rw [hs]
      exact broadcastGet_self y i hi2
    rw [broadcastGet_self x i hi1, h2]
  · intro s hdev hbc
    exact ⟨_, pytorch_add_of_broadcast x y s hdev hbc, rfl⟩
  · exact pytorch_add_of_none x y
  · exact pytorch_add_of_device_mismatch x y

/-- C5 witness: identical same-device shapes yield the elementwise sum;
broadcast-compatible differing shapes succeed; same-device incompatible
shapes hit the shape-mismatch error; a CUDA/host non-scalar pair hits the
same-device error. -/
theorem C5_witness :
    (∃ t, pytorch_add tenA tenB = Except.ok t ∧ t.shape = tenA.shape ∧
      t.dtype = promoteDType tenA.dtype tenB.dtype ∧
      ∀ i, i < tenA.numel →
        t.data.getD i 0 = tenA.data.getD i 0 + tenB.data.getD i 0) ∧
    (∃ t, pytorch_add tenC tenD = Except.ok t ∧ t.shape = [2]) ∧
    pytorch_add tenC tenG =
      Except.error ("the size of tensor a must match the size of tensor b") ∧
    pytorch_add tenE tenC =
      Except.error ("Expected all tensors to be on the same device") :=
  ⟨(C5_pytorch_add_spec tenA tenB).1 rfl rfl,
    (C5_pytorch_add_spec tenC tenD).2.1 [2] rfl (by rfl),
    (C5_pytorch_add_spec tenC tenG).2.2.1 rfl (by rfl),
    (C5_pytorch_add_spec tenE tenC).2.2.2 (by decide) (by rfl) (by rfl)⟩

/-- C6: in `export_torchscript_model`, when tracing/scripting, saving and
reloading all succeed, the function returns the serialized model even if
the post-hoc comparison at tolerance `1e-6` mismatches (the mismatch is
only logged as a warning); whereas an exception during tracing/scripting
or during saving is re-raised to the caller. -/
theorem C6_export_soft_verify (env : ExportEnv) (ut : Bool) :
    (∀ m lm, (if ut then env.traceResult else env.scriptResult) = Except.ok m →
      env.saveResult m = Except.ok () → env.loadResult = Except.ok lm →
      (export_torchscript_model env ut).1 = Except.ok m ∧
      (allclose env.originalOut (env.loadedOut lm) ATOL = false →
        (export_torchscript_model env ut).2 =
          [("Model verification failed - results mismatch")])) ∧
    (∀ e, (if ut then env.traceResult else env.scriptResult) = Except.error e →
      export_torchscript_model env ut =
        (Except.error e, [("Model export failed: " ++ e)])) ∧
    (∀ m e, (if ut then env.traceResult else env.scriptResult) = Except.ok m →
      env.saveResult m = Except.error e →
      export_torchscript_model env ut =
        (Except.error e, [("Model export failed: " ++ e)])) := by
  refine ⟨?_, ?_, ?_⟩
  · intro m lm h1 h2 h3
    simp only [export_torchscript_model, h1, h2, h3]
    by_cases hac : allclose env.originalOut (env.loadedOut lm) ATOL = true
    · rw [if_pos hac]
      refine ⟨rfl, fun hf => ?_⟩
      rw [hf] at hac
      exact Bool.noConfusion hac
    · rw [if_neg hac]
      exact ⟨rfl, fun _ => rfl⟩
  · intro e h1
    simp only [export_torchscript_model, h1]
  · intro m e h1 h2
    simp only [export_torchscript_model, h1, h2]

/-- C6 witness: all external steps succeed but the reloaded module
disagrees; the export still returns the model and only logs a warning. -/
theorem C6_witness :
    (export_torchscript_model envW true).1 = Except.ok 1 ∧
      (export_torchscript_model envW true).2 =
        [("Model verification failed - results mismatch")] := by
  have h := (C6_export_soft_verify envW true).1 1 3 rfl rfl rfl
  exact ⟨h.1, h.2 (by norm_num [allclose, envW, ATOL])⟩

/-- C7: with no accelerator available, `validate_correctness` returns
`false` and `benchmark_add_operations` returns a record whose four
kernel-latency, fallback-latency, speedup-ratio and accuracy lists are all
empty — both short-circuit before running their measurement bodies. -/
theorem C7_availability_guard (bbody : BenchResults → BenchResults)
    (vbody : List Nat → Bool) (s1 s2 : Option (List Nat)) :
    validate_correctness false vbody s2 = false ∧
    (benchmark_add_operations false bbody s1).triton_times = [] ∧
    (benchmark_add_operations false bbody s1).pytorch_times = [] ∧
    (benchmark_add_operations false bbody s1).speedup_ratios = [] ∧
    (benchmark_add_operations false bbody s1).accuracy_checks = [] ∧
    (benchmark_add_operations false bbody s1).sizes =
      s1.getD [1000, 10000, 100000, 1000000] :=
  ⟨rfl, rfl, rfl, rfl, rfl, rfl⟩

/-- C10: when both operands are CUDA-resident but their shapes or dtypes
differ while remaining broadcast-compatible, `add` does not raise: the
kernel precondition failure is caught and silently converted into the
fallback broadcast result. -/
theorem C10_dispatch_broadcast (x y : Tensor) (hcx : x.device = Device.cuda)
    (hcy : y.device = Device.cuda) (s : List Nat)
    (hdiff : x.shape ≠ y.shape ∨ x.dtype ≠ y.dtype)
    (hbc : broadcastShape x.shape y.shape = some s) :
    (add true x y true).1 = pytorch_add x y ∧
      ∃ t, pytorch_add x y = Except.ok t ∧ t.shape = s := by
  obtain ⟨e, he⟩ := triton_add_error_of_mismatch x y
    (hdiff.elim Or.inl (fun h => Or.inr (Or.inl h)))
  constructor
  · unfold add
    rw [if_pos ⟨rfl, hcx, hcy, rfl⟩, he]
  · exact ⟨_, pytorch_add_of_broadcast x y s (hcx.trans hcy.symm) hbc, rfl⟩

/-- C10 witness: CUDA operands of shapes `[2]` and `[1]`: the dispatcher
returns the fallback broadcast result without raising. -/
theorem C10_witness :
    (add true tenE tenF true).1 = pytorch_add tenE tenF ∧
      ∃ t, pytorch_add tenE tenF = Except.ok t ∧ t.shape = [2] :=
  C10_dispatch_broadcast tenE tenF rfl rfl [2] (Or.inl (by decide)) (by rfl)
